import Mathlib

set_option maxRecDepth 4096

/-!
Verification of the prompt-assembly and response-post-processing pipeline of
`app.py` (a single-page REGO-policy generator). The pure string computations
(the few-shot prompt template, the substring-based policy analysis, Python's
`str.strip` and `str.count`) are embedded as executable Lean functions, and the
button handler (app.py lines 243-295) is embedded as a pure function over an
explicit session state, parameterized by the completion-client adapter.
-/

/-- Model of Python membership testing of one string in another (`needle in hay`),
over the character lists of the two strings: true iff `needle` occurs as a
contiguous substring of `hay`. -/
def containsSub (needle : List Char) : List Char → Bool
  | [] => needle.isEmpty
  | c :: hs => needle.isPrefixOf (c :: hs) || containsSub needle hs

/-- Scanning loop of Python `hay.count(needle)` for a non-empty needle: walk
the haystack one position at a time; `skip > 0` means the current position is
still inside the previously matched block, so it is not tested (this realizes
the advance-past-the-match of Python's scan, i.e. matches never overlap). -/
def pyCountAux (needle : List Char) : List Char → Nat → Nat
  | [], _ => 0
  | _ :: hs, skip + 1 => pyCountAux needle hs skip
  | c :: hs, 0 =>
    if needle.isPrefixOf (c :: hs) then pyCountAux needle hs (needle.length - 1) + 1
    else pyCountAux needle hs 0

/-- Model of Python `hay.count(needle)`: the number of non-overlapping
occurrences of `needle` in `hay`, scanning left to right (for the empty needle
Python returns `len(hay) + 1`). -/
def pyCount (needle hay : List Char) : Nat :=
  match needle with
  | [] => hay.length + 1
  | _ :: _ => pyCountAux needle hay 0

/-- Model of Python `s.strip()` on a character list: remove the maximal run of
whitespace characters from both ends. -/
def pyStrip (l : List Char) : List Char :=
  ((l.dropWhile Char.isWhitespace).reverse.dropWhile Char.isWhitespace).reverse

/-- Python `s.strip()` on strings, via `pyStrip` on the character list. -/
def strip (s : String) : String :=
  String.mk (pyStrip s.data)

/-- The model identifiers offered by the sidebar selector (app.py lines 13-17). -/
def MODEL_OPTIONS : List String :=
  ["llama3-8b-8192", "llama3-70b-8192", "deepseek-r1-distill-llama-70b"]

/-- Structured record for one few-shot example: a (description, policy text)
pair as rendered inside the `few_shot_examples` block of app.py. -/
structure Example where
  description : String
  policy_text : String

/-- Example 1 of the Example Bank: the description/policy pair rendered inside the few-shot block. -/
def ex1 : Example where
  description := "Allow access to users with the role \"admin\"."
  policy_text := "package authz\n\ndefault allow = false\n\nallow \x7b\n    input.role == \"admin\"\n\x7d"

/-- Example 2 of the Example Bank: the description/policy pair rendered inside the few-shot block. -/
def ex2 : Example where
  description := "Deny all IP addresses not in the allowed list."
  policy_text := "package network\n\ndefault allow = false\n\nallow \x7b\n    input.ip == \"192.168.1.1\"\n\x7d \x7b\n    input.ip == \"10.0.0.2\"\n\x7d"

/-- Example 3 of the Example Bank: the description/policy pair rendered inside the few-shot block. -/
def ex3 : Example where
  description := "Approve requests only if the request time is between 9AM and 5PM."
  policy_text := "package timebased\n\ndefault allow = false\n\nallow \x7b\n    input.time >= 9\n    input.time <= 17\n\x7d"

/-- Example 4 of the Example Bank: the description/policy pair rendered inside the few-shot block. -/
def ex4 : Example where
  description := "Complex hierarchical authorization - Allow access if user is either:\n1. An admin in any department, OR\n2. A manager in the same department as the resource"
  policy_text := "package hierarchical_authz\n\ndefault allow = false\n\nallow \x7b\n    input.user.roles[_] == \"admin\"\n\x7d \x7b\n    input.user.roles[_] == \"manager\"\n    input.user.department == input.resource.department\n\x7d"

/-- Example 5 of the Example Bank: the description/policy pair rendered inside the few-shot block. -/
def ex5 : Example where
  description := "Validate JWT tokens with RS256 signature and check claims:\n1. Token must be valid and not expired\n2. Audience must match our service\n3. Must have either \"read:data\" or \"write:data\" scope"
  policy_text := "package jwt_authz\n\nimport future.keywords.in\n\ndefault allow = false\n\nallow \x7b\n    [valid, _, _] := io.jwt.decode_verify(input.jwt, \x7b\n        \"cert\": input.cert,\n        \"alg\": \"RS256\"\n    \x7d)\n    valid\n    now := time.now_ns() / 1000000000\n    payload := io.jwt.decode(input.jwt)[1]\n    payload.exp >= now\n    payload.aud == \"my-service\"\n    valid_scopes(payload.scope)\n\x7d\n\nvalid_scopes(scopes) \x7b\n    scopes[_] == \"read:data\"\n\x7d \x7b\n    scopes[_] == \"write:data\"\n\x7d"

/-- Example 6 of the Example Bank: the description/policy pair rendered inside the few-shot block. -/
def ex6 : Example where
  description := "Resource quota enforcement with tiered access:\n1. Free tier: max 5 resources, each <1GB\n2. Pro tier: max 50 resources, each <10GB\n3. Enterprise tier: unlimited"
  policy_text := "package quota\n\nimport future.keywords.in\n\ndefault violation = null\n\nviolation[\"Free tier exceeded resource limit\"] \x7b\n    input.tier == \"free\"\n    count(input.resources) > 5\n\x7d\n\nviolation[\"Free tier exceeded size limit\"] \x7b\n    input.tier == \"free\"\n    resource := input.resources[_]\n    resource.size > 1000000000  # 1GB in bytes\n\x7d\n\nviolation[\"Pro tier exceeded resource limit\"] \x7b\n    input.tier == \"pro\"\n    count(input.resources) > 50\n\x7d\n\nviolation[\"Pro tier exceeded size limit\"] \x7b\n    input.tier == \"pro\"\n    resource := input.resources[_]\n    resource.size > 10000000000  # 10GB in bytes\n\x7d"

/-- Example 7 of the Example Bank: the description/policy pair rendered inside the few-shot block. -/
def ex7 : Example where
  description := "Complex workflow approval requiring:\n1. At least 2 approvers from different teams\n2. No conflicts of interest (approver not in same team as requester)\n3. Budget under $10k OR CEO approval if over"
  policy_text := "package workflow\n\nimport future.keywords.in\n\ndefault approved = false\n\napproved \x7b\n    count(input.approvals) >= 2\n    different_team_approvals\n    no_conflicts_of_interest\n    valid_budget\n\x7d\n\ndifferent_team_approvals \x7b\n    approver1 := input.approvals[_]\n    approver2 := input.approvals[_]\n    approver1 != approver2\n    approver1.team != approver2.team\n\x7d\n\nno_conflicts_of_interest \x7b\n    not input.approvals[_].team == input.requester.team\n\x7d\n\nvalid_budget \x7b\n    input.budget <= 10000\n\x7d \x7b\n    input.budget > 10000\n    input.approvals[_].title == \"CEO\"\n\x7d"

/-- The Example Bank: the ordered list of the seven few-shot examples of app.py lines 20-200. -/
def exampleBank : List Example := [ex1, ex2, ex3, ex4, ex5, ex6, ex7]

/-- Literal text of the few-shot block around the policy blocks (segment 0). -/
def seg0 : String := "\nExample 1:\nPolicy Description:\nAllow access to users with the role \"admin\".\n\nREGO Policy:\n"

/-- Literal text of the few-shot block around the policy blocks (segment 1). -/
def seg1 : String := "\n\n---\n\nExample 2:\nPolicy Description:\nDeny all IP addresses not in the allowed list.\n\nREGO Policy:\n"

/-- Literal text of the few-shot block around the policy blocks (segment 2). -/
def seg2 : String := "\n\n---\n\nExample 3:\nPolicy Description:\nApprove requests only if the request time is between 9AM and 5PM.\n\nREGO Policy:\n"

/-- Literal text of the few-shot block around the policy blocks (segment 3). -/
def seg3 : String := "\n\n---\n\nExample 4:\nPolicy Description:\nComplex hierarchical authorization - Allow access if user is either:\n1. An admin in any department, OR\n2. A manager in the same department as the resource\n\nREGO Policy:\n"

/-- Literal text of the few-shot block around the policy blocks (segment 4). -/
def seg4 : String := "\n\n---\n\nExample 5:\nPolicy Description:\nValidate JWT tokens with RS256 signature and check claims:\n1. Token must be valid and not expired\n2. Audience must match our service\n3. Must have either \"read:data\" or \"write:data\" scope\n\nREGO Policy:\n"

/-- Literal text of the few-shot block around the policy blocks (segment 5). -/
def seg5 : String := "\n\n---\n\nExample 6:\nPolicy Description:\nResource quota enforcement with tiered access:\n1. Free tier: max 5 resources, each <1GB\n2. Pro tier: max 50 resources, each <10GB\n3. Enterprise tier: unlimited\n\nREGO Policy:\n"

/-- Literal text of the few-shot block around the policy blocks (segment 6). -/
def seg6 : String := "\n\n---\n\nExample 7:\nPolicy Description:\nComplex workflow approval requiring:\n1. At least 2 approvers from different teams\n2. No conflicts of interest (approver not in same team as requester)\n3. Budget under $10k OR CEO approval if over\n\nREGO Policy:\n"

/-- Literal text of the few-shot block around the policy blocks (segment 7). -/
def seg7 : String := "\n"

/-- Embedding of the Python string literal `few_shot_examples` (app.py lines 20-200).
The single triple-quoted literal is rendered here as the concatenation, in source
order, of its consecutive character runs, split at the boundaries of the seven
policy blocks; the concatenated value is character-for-character the Python literal
(braces are written as hex escapes). -/
def few_shot_examples : String :=
  seg0 ++ (ex1.policy_text ++ (seg1 ++ (ex2.policy_text ++ (seg2 ++ (ex3.policy_text ++ (seg3 ++ (ex4.policy_text ++ (seg4 ++ (ex5.policy_text ++ (seg5 ++ (ex6.policy_text ++ (seg6 ++ (ex7.policy_text ++ (seg7))))))))))))))

/-- Literal text of the f-string `full_prompt` before the interpolated few-shot block. -/
def promptHead : String := "\nYou are a cybersecurity expert specializing in Open Policy Agent (OPA) and REGO policies.\n\nUse the following examples to understand the style and structure.\n\n"

/-- Literal text of `full_prompt` between the few-shot block and the user description. -/
def promptMid : String := "\n\nNow, based on this new Policy Description, generate a REGO policy.\nFollow these guidelines:\n1. Include proper package declaration\n2. Set default allow = false when appropriate\n3. Use clear, descriptive rule names\n4. Include all necessary conditions\n5. Format for readability\n\nOnly output the REGO code block. No explanation, no extra text.\n\nPolicy Description:\n\"\"\"\n"

/-- Literal text of `full_prompt` after the user description. -/
def promptTail : String := "\n\"\"\"\n"

/-- Embedding of the f-string `full_prompt` (app.py lines 249-270): literal head,
the few-shot block, the guidelines/closing-instruction block, the user description,
and the closing delimiter, concatenated in source order. -/
def full_prompt (user_prompt : String) : String :=
  promptHead ++ few_shot_examples ++ promptMid ++ user_prompt ++ promptTail

/-- One chat message of the completion request (a `role`/`content` dict in app.py). -/
structure ChatMessage where
  role : String
  content : String
deriving DecidableEq

/-- The outbound completion request built by the handler (app.py lines 272-279):
model identifier, message sequence and sampling temperature. -/
structure ChatRequest where
  model : String
  messages : List ChatMessage
  temperature : Rat
deriving DecidableEq

/-- One completion choice of the service response, holding a message. -/
structure Choice where
  message : ChatMessage
deriving DecidableEq

/-- The completion-service response: a list of choices (the handler reads `choices[0]`). -/
structure ChatCompletion where
  choices : List Choice
deriving DecidableEq

/-- Failure kinds of the external completion call (spec section 4.2): the groq
client raises an exception of one of these kinds instead of returning. -/
inductive AdapterError where
  | transport
  | authentication
  | rateLimit
  | malformed
deriving DecidableEq

/-- An exception escaping the handler: either an adapter failure re-raised from
`client.chat.completions.create`, or the IndexError of reading `choices[0]`
from an empty choice list. -/
inductive PyError where
  | adapter (e : AdapterError)
  | indexError
deriving DecidableEq

/-- The Streamlit session state touched by the handler: the
`st.session_state["generated_rego"]` slot (absent or holding the last output). -/
structure SessionState where
  generated_rego : Option String
deriving DecidableEq

/-- What the handler run produces for the user: a validation warning, a
successfully generated (and displayed) policy text, or an exception that the
handler does not catch and that propagates out of the pipeline. -/
inductive Outcome where
  | warned (msg : String)
  | success (output : String)
  | uncaught (e : PyError)
deriving DecidableEq

/-- Result of one run of the button handler: the session state after the run,
the list of completion requests issued to the adapter, and the outcome. -/
structure HandlerResult where
  state : SessionState
  calls : List ChatRequest
  outcome : Outcome

/-- The system message sent with every completion request (app.py line 275). -/
def systemMessageText : String :=
  "You are an expert REGO policy writer. Output only valid REGO code."

/-- Embedding of the button handler (app.py lines 243-295). An empty or
whitespace-only description short-circuits to a warning without touching the
adapter. Otherwise the handler builds `full_prompt`, issues one completion
request at temperature 0.2, and on success stores the stripped first-choice
content in the session slot; an adapter exception, or the IndexError on an
empty choice list, is not caught (the source has no try/except) and leaves the
session state unchanged. -/
def handleGenerate (user_prompt selected_model : String)
    (adapter : ChatRequest → Except AdapterError ChatCompletion)
    (state : SessionState) : HandlerResult :=
  if (pyStrip user_prompt.data).isEmpty then
    { state := state, calls := [], outcome := Outcome.warned ("Please enter a policy description.") }
  else
    let req : ChatRequest :=
      { model := selected_model
      , messages := [{ role := "system", content := systemMessageText },
                     { role := "user", content := full_prompt user_prompt }]
      , temperature := 0.2 }
    match adapter req with
    | Except.error e =>
      { state := state, calls := [req], outcome := Outcome.uncaught (PyError.adapter e) }
    | Except.ok comp =>
      match comp.choices.head? with
      | none => { state := state, calls := [req], outcome := Outcome.uncaught PyError.indexError }
      | some choice =>
        let output := strip choice.message.content
        { state := { generated_rego := some output }, calls := [req],
          outcome := Outcome.success output }

/-- The three lexical features reported by the Policy Analysis expander. -/
structure Features where
  default_deny : Bool
  package_declared : Bool
  input_refs : Nat
deriving DecidableEq

/-- Output Inspector (app.py lines 293-295): the features shown in the Policy
Analysis expander, computed exactly as the source does, by Python substring
membership for the two booleans and `str.count` for the input-reference count. -/
def inspect (output : String) : Features where
  default_deny := containsSub ("default allow = false").data output.data
  package_declared := containsSub ("package ").data output.data
  input_refs := pyCount ("input.").data output.data

/-- The download affordance rendered by app.py lines 298-305. -/
structure DownloadButton where
  label : String
  data : String
  file_name : String
  mime : String
deriving DecidableEq

/-- Download section (app.py lines 298-305): rendered only when a generated
policy is stored in the session slot; the stored text is passed through as the
file content, with fixed filename and MIME type. -/
def renderDownload (st : SessionState) : Option DownloadButton :=
  match st.generated_rego with
  | some txt => some { label := "⬇️ Download REGO File", data := txt,
                       file_name := "generated_policy.rego", mime := "text/plain" }
  | none => none

/-- Containment of a list of strings in a text as in-order, non-overlapping
verbatim blocks: each listed string occurs verbatim, and the occurrences appear
in list order. -/
inductive ContainsInOrder : List String → String → Prop
  | nil (s : String) : ContainsInOrder [] s
  | cons (p : String) (ps : List String) (a rest : String) :
      ContainsInOrder ps rest → ContainsInOrder (p :: ps) (a ++ (p ++ rest))

theorem ContainsInOrder.append_left {ps : List String} {s : String} (t : String)
    (h : ContainsInOrder ps s) : ContainsInOrder ps (t ++ s) := by
  cases h with
  | nil s => exact ContainsInOrder.nil (t ++ s)
  | cons p ps a rest h0 =>
    have h1 := ContainsInOrder.cons p ps (t ++ a) rest h0
    rwa [String.append_assoc] at h1

theorem ContainsInOrder.append_right {ps : List String} {s : String} (t : String)
    (h : ContainsInOrder ps s) : ContainsInOrder ps (s ++ t) := by
  induction h with
  | nil s => exact ContainsInOrder.nil (s ++ t)
  | cons p ps a rest h0 ih =>
    rw [String.append_assoc, String.append_assoc]
    exact ContainsInOrder.cons p ps a (rest ++ t) ih

/-- The few-shot block contains the seven example policies verbatim, in
Example Bank order. -/
theorem fewShot_contains_policies :
    ContainsInOrder (exampleBank.map Example.policy_text) few_shot_examples := by
  show ContainsInOrder
    [ex1.policy_text, ex2.policy_text, ex3.policy_text, ex4.policy_text,
     ex5.policy_text, ex6.policy_text, ex7.policy_text] few_shot_examples
  exact ContainsInOrder.cons _ _ seg0 _ (ContainsInOrder.cons _ _ seg1 _
    (ContainsInOrder.cons _ _ seg2 _ (ContainsInOrder.cons _ _ seg3 _
      (ContainsInOrder.cons _ _ seg4 _ (ContainsInOrder.cons _ _ seg5 _
        (ContainsInOrder.cons _ _ seg6 _ (ContainsInOrder.nil seg7)))))))

/-- Characterization of `pyStrip`: the input splits as an all-whitespace
prefix, the stripped text unchanged in the middle, and an all-whitespace
suffix. -/
theorem pyStrip_decomposition (l : List Char) :
    ∃ a b : List Char, l = a ++ pyStrip l ++ b ∧
      (∀ c ∈ a, c.isWhitespace) ∧ (∀ c ∈ b, c.isWhitespace) := by
  have h2 : (l.dropWhile Char.isWhitespace).reverse.takeWhile Char.isWhitespace ++
      (l.dropWhile Char.isWhitespace).reverse.dropWhile Char.isWhitespace =
      (l.dropWhile Char.isWhitespace).reverse :=
    List.takeWhile_append_dropWhile _ _
  refine ⟨l.takeWhile Char.isWhitespace,
    ((l.dropWhile Char.isWhitespace).reverse.takeWhile Char.isWhitespace).reverse,
    ?_, ?_, ?_⟩
  · have h3 : l.dropWhile Char.isWhitespace =
        pyStrip l ++
          ((l.dropWhile Char.isWhitespace).reverse.takeWhile Char.isWhitespace).reverse := by
      have h4 := congrArg List.reverse h2
      rw [List.reverse_append, List.reverse_reverse] at h4
      exact h4.symm
    rw [List.append_assoc, ← h3, List.takeWhile_append_dropWhile]
  · intro c hc
    exact List.mem_takeWhile_imp hc
  · intro c hc
    rw [List.mem_reverse] at hc
    exact List.mem_takeWhile_imp hc

/-- C1: for every non-empty description, the composed prompt `full_prompt`
contains the description text verbatim, and contains every Example Bank
entry's policy text verbatim, in Example Bank order. -/
theorem full_prompt_contains_description_and_policies (d : String) (_h : d ≠ "") :
    (∃ a b : String, full_prompt d = a ++ (d ++ b)) ∧
    ContainsInOrder (exampleBank.map Example.policy_text) (full_prompt d) := by
  constructor
  · exact ⟨promptHead ++ few_shot_examples ++ promptMid, promptTail,
      String.append_assoc (promptHead ++ few_shot_examples ++ promptMid) d promptTail⟩
  · exact (((fewShot_contains_policies.append_left promptHead).append_right
      promptMid).append_right d).append_right promptTail

/-- Witness for C1 at the concrete description "test". -/
theorem full_prompt_contains_description_and_policies_witness :
    ("test" : String) ≠ "" ∧
    ((∃ a b : String, full_prompt ("test") = a ++ ("test" ++ b)) ∧
     ContainsInOrder (exampleBank.map Example.policy_text) (full_prompt ("test"))) :=
  ⟨by decide, full_prompt_contains_description_and_policies ("test") (by decide)⟩

/-- C2: for every description that is empty or whitespace-only after stripping,
the handler issues no completion request, surfaces the validation warning, and
leaves the session state unchanged. -/
theorem empty_description_skips_adapter (p m : String)
    (adapter : ChatRequest → Except AdapterError ChatCompletion) (st : SessionState)
    (h : (pyStrip p.data).isEmpty = true) :
    (handleGenerate p m adapter st).calls = [] ∧
    (handleGenerate p m adapter st).outcome =
      Outcome.warned ("Please enter a policy description.") ∧
    (handleGenerate p m adapter st).state = st := by
  unfold handleGenerate
  simp [h]

/-- Witness for C2 at the whitespace-only description. -/
theorem empty_description_skips_adapter_witness :
    (pyStrip ("  \n ").data).isEmpty = true ∧
    ((handleGenerate ("  \n ") ("llama3-8b-8192")
        (fun _ => Except.error AdapterError.transport) ⟨none⟩).calls = [] ∧
     (handleGenerate ("  \n ") ("llama3-8b-8192")
        (fun _ => Except.error AdapterError.transport) ⟨none⟩).outcome =
       Outcome.warned ("Please enter a policy description.") ∧
     (handleGenerate ("  \n ") ("llama3-8b-8192")
        (fun _ => Except.error AdapterError.transport) ⟨none⟩).state = ⟨none⟩) :=
  ⟨by decide, empty_description_skips_adapter ("  \n ") ("llama3-8b-8192")
    (fun _ => Except.error AdapterError.transport) ⟨none⟩ (by decide)⟩

/-- C4: the Output Inspector is total, pure and deterministic: on every input
text (the empty string included) it yields a feature record, and two
applications to the same text are identical. -/
theorem inspect_total_and_deterministic (t : String) :
    (∃ r : Features, inspect t = r) ∧ inspect t = inspect t ∧
    ∃ r₀ : Features, inspect ("") = r₀ :=
  ⟨⟨inspect t, rfl⟩, rfl, ⟨inspect (""), rfl⟩⟩

/-- C5: concrete feature values: the default-deny literal is reported on
itself, and the empty string reports no default deny, no package declaration,
and zero input references. -/
theorem inspect_concrete_features :
    (inspect ("default allow = false")).default_deny = true ∧
    (inspect ("")).default_deny = false ∧
    (inspect ("")).package_declared = false ∧
    (inspect ("")).input_refs = 0 := by
  decide

/-- C8: whenever a result text is stored in the session slot, the download
button exposes exactly that text as the file content, with MIME type
text/plain and suggested filename generated_policy.rego. -/
theorem download_payload_passthrough (txt : String) (st : SessionState)
    (h : st.generated_rego = some txt) :
    renderDownload st = some
      { label := "⬇️ Download REGO File", data := txt,
        file_name := "generated_policy.rego", mime := "text/plain" } := by
  unfold renderDownload
  rw [h]

/-- Witness for C8 at a stored text containing embedded code-fence delimiters. -/
theorem download_payload_passthrough_witness :
    (SessionState.mk (some ("```rego\npackage x\n```"))).generated_rego =
      some ("```rego\npackage x\n```") ∧
    renderDownload (SessionState.mk (some ("```rego\npackage x\n```"))) =
      some
        { label := "⬇️ Download REGO File", data := ("```rego\npackage x\n```"),
          file_name := "generated_policy.rego", mime := "text/plain" } :=
  ⟨rfl, download_payload_passthrough ("```rego\npackage x\n```")
    (SessionState.mk (some ("```rego\npackage x\n```"))) rfl⟩

/-- C10: the three features are decided by exact literal substring matching:
the literals are detected anywhere in the text, comments and string literals
included; variant spellings are not detected; and the input-reference count is
the number of non-overlapping occurrences of the input literal. -/
theorem inspect_literal_substring_semantics :
    (inspect ("# default allow = false in a comment")).default_deny = true ∧
    (inspect ("msg := \"default allow = false\"")).default_deny = true ∧
    (inspect ("default allow := false")).default_deny = false ∧
    (inspect ("package x")).package_declared = true ∧
    (inspect ("package")).package_declared = false ∧
    (inspect ("a package here")).package_declared = true ∧
    (inspect ("allow \x7b input.a == input.b \x7d")).input_refs = 2 ∧
    (inspect ("input.input.")).input_refs = 2 ∧
    (inspect ("# input. inside \"input.\" anywhere")).input_refs = 2 := by
  decide

/-- C3 counterexample: with a non-empty description and an adapter raising a
transport failure, the handler's outcome is the uncaught propagated exception,
not a user-facing message: the source wraps the completion call in no
try/except, so the failure leaves the pipeline unhandled. -/
theorem adapter_failure_not_converted_counterexample :
    (handleGenerate ("test") ("llama3-8b-8192")
        (fun _ => Except.error AdapterError.transport) ⟨none⟩).outcome =
      Outcome.uncaught (PyError.adapter AdapterError.transport) ∧
    (∀ msg : String,
      (handleGenerate ("test") ("llama3-8b-8192")
          (fun _ => Except.error AdapterError.transport) ⟨none⟩).outcome ≠
        Outcome.warned msg) ∧
    (∀ out : String,
      (handleGenerate ("test") ("llama3-8b-8192")
          (fun _ => Except.error AdapterError.transport) ⟨none⟩).outcome ≠
        Outcome.success out) := by
  refine ⟨rfl, ?_, ?_⟩
  · intro msg hmsg
    rw [show (handleGenerate ("test") ("llama3-8b-8192")
        (fun _ => Except.error AdapterError.transport) ⟨none⟩).outcome =
      Outcome.uncaught (PyError.adapter AdapterError.transport) from rfl] at hmsg
    exact Outcome.noConfusion hmsg
  · intro out hout
    rw [show (handleGenerate ("test") ("llama3-8b-8192")
        (fun _ => Except.error AdapterError.transport) ⟨none⟩).outcome =
      Outcome.uncaught (PyError.adapter AdapterError.transport) from rfl] at hout
    exact Outcome.noConfusion hout

/-- C3 amended: the handler catches nothing at the pipeline boundary: for a
non-empty description, every adapter failure propagates out of the handler as
an uncaught exception of the same kind, leaving the session state unchanged;
likewise a malformed (empty-choices) response propagates as the uncaught
IndexError of reading the first choice. -/
theorem adapter_failure_propagates_uncaught (p m : String) (e : AdapterError)
    (adapter : ChatRequest → Except AdapterError ChatCompletion) (st : SessionState)
    (hne : (pyStrip p.data).isEmpty = false)
    (hfail : ∀ r, adapter r = Except.error e) :
    ((handleGenerate p m adapter st).outcome = Outcome.uncaught (PyError.adapter e) ∧
     (handleGenerate p m adapter st).state = st) ∧
    ∀ adapter2 : ChatRequest → Except AdapterError ChatCompletion,
      (∀ r, adapter2 r = Except.ok (ChatCompletion.mk [])) →
        (handleGenerate p m adapter2 st).outcome = Outcome.uncaught PyError.indexError ∧
        (handleGenerate p m adapter2 st).state = st := by
  constructor
  · unfold handleGenerate
    simp [hne, hfail]
  · intro adapter2 hok
    unfold handleGenerate
    simp [hne, hok]

/-- Witness for the amended C3 at concrete inputs. -/
theorem adapter_failure_propagates_uncaught_witness :
    (pyStrip ("test").data).isEmpty = false ∧
    (((handleGenerate ("test") ("llama3-8b-8192")
          (fun _ => Except.error AdapterError.rateLimit) ⟨some ("old policy")⟩).outcome =
        Outcome.uncaught (PyError.adapter AdapterError.rateLimit) ∧
      (handleGenerate ("test") ("llama3-8b-8192")
          (fun _ => Except.error AdapterError.rateLimit) ⟨some ("old policy")⟩).state =
        ⟨some ("old policy")⟩) ∧
     ∀ adapter2 : ChatRequest → Except AdapterError ChatCompletion,
       (∀ r, adapter2 r = Except.ok (ChatCompletion.mk [])) →
         (handleGenerate ("test") ("llama3-8b-8192") adapter2
             ⟨some ("old policy")⟩).outcome = Outcome.uncaught PyError.indexError ∧
         (handleGenerate ("test") ("llama3-8b-8192") adapter2
             ⟨some ("old policy")⟩).state = ⟨some ("old policy")⟩) :=
  ⟨by decide, adapter_failure_propagates_uncaught ("test") ("llama3-8b-8192")
    AdapterError.rateLimit (fun _ => Except.error AdapterError.rateLimit)
    ⟨some ("old policy")⟩ (by decide) (fun _ => rfl)⟩

/-- C6: for every successful completion response, the handler's result text is
the first choice's message content with leading and trailing whitespace
stripped and the interior unchanged (the content splits as whitespace, result,
whitespace), the single issued request carries temperature 0.2; and on the
fixed response text of the spec's test the features report default-deny and
package-declared. -/
theorem successful_completion_trims_and_reports (d m content : String)
    (st : SessionState) (hd : (pyStrip d.data).isEmpty = false) :
    (handleGenerate d m
        (fun _ => Except.ok (ChatCompletion.mk [Choice.mk (ChatMessage.mk ("assistant") content)]))
        st).outcome = Outcome.success (strip content) ∧
    (handleGenerate d m
        (fun _ => Except.ok (ChatCompletion.mk [Choice.mk (ChatMessage.mk ("assistant") content)]))
        st).calls =
      [{ model := m
       , messages := [{ role := "system", content := systemMessageText },
                      { role := "user", content := full_prompt d }]
       , temperature := 0.2 }] ∧
    (∃ a b : List Char, content.data = a ++ (strip content).data ++ b ∧
      (∀ c ∈ a, c.isWhitespace) ∧ (∀ c ∈ b, c.isWhitespace)) ∧
    strip ("package x\ndefault allow = false") = "package x\ndefault allow = false" ∧
    (inspect ("package x\ndefault allow = false")).default_deny = true ∧
    (inspect ("package x\ndefault allow = false")).package_declared = true := by
  refine ⟨?_, ?_, ?_, by decide, by decide, by decide⟩
  · unfold handleGenerate
    simp [hd]
  · unfold handleGenerate
    simp [hd]
  · exact pyStrip_decomposition content.data

/-- Witness for C6 at the fixed response text of the spec's test. -/
theorem successful_completion_trims_and_reports_witness :
    (pyStrip ("test").data).isEmpty = false ∧
    ((handleGenerate ("test") ("llama3-8b-8192")
        (fun _ => Except.ok (ChatCompletion.mk
          [Choice.mk (ChatMessage.mk ("assistant") ("package x\ndefault allow = false"))]))
        ⟨none⟩).outcome = Outcome.success (strip ("package x\ndefault allow = false")) ∧
     (handleGenerate ("test") ("llama3-8b-8192")
        (fun _ => Except.ok (ChatCompletion.mk
          [Choice.mk (ChatMessage.mk ("assistant") ("package x\ndefault allow = false"))]))
        ⟨none⟩).calls =
       [{ model := "llama3-8b-8192"
        , messages := [{ role := "system", content := systemMessageText },
                       { role := "user", content := full_prompt ("test") }]
        , temperature := 0.2 }] ∧
     (∃ a b : List Char, ("package x\ndefault allow = false").data =
         a ++ (strip ("package x\ndefault allow = false")).data ++ b ∧
       (∀ c ∈ a, c.isWhitespace) ∧ (∀ c ∈ b, c.isWhitespace)) ∧
     strip ("package x\ndefault allow = false") = "package x\ndefault allow = false" ∧
     (inspect ("package x\ndefault allow = false")).default_deny = true ∧
     (inspect ("package x\ndefault allow = false")).package_declared = true) :=
  ⟨by decide, successful_completion_trims_and_reports ("test") ("llama3-8b-8192")
    ("package x\ndefault allow = false") ⟨none⟩ (by decide)⟩

/-- C7: if the completion call fails, the previously stored result in the
session slot is left unmodified; and for any adapter at all, the stored slot is
overwritten only by a successful outcome, which stores exactly the new result. -/
theorem failed_completion_preserves_previous_result (p m : String) (e : AdapterError)
    (adapter : ChatRequest → Except AdapterError ChatCompletion) (st : SessionState)
    (hfail : ∀ r, adapter r = Except.error e) :
    (handleGenerate p m adapter st).state = st ∧
    ∀ adapter2 : ChatRequest → Except AdapterError ChatCompletion,
      (handleGenerate p m adapter2 st).state ≠ st →
        ∃ out, (handleGenerate p m adapter2 st).outcome = Outcome.success out ∧
          (handleGenerate p m adapter2 st).state = ⟨some out⟩ := by
  constructor
  · unfold handleGenerate
    by_cases hc : (pyStrip p.data).isEmpty
    · simp [hc]
    · simp [hc, hfail]
  · intro adapter2 hne
    unfold handleGenerate at hne ⊢
    by_cases hc : (pyStrip p.data).isEmpty
    · simp [hc] at hne
    · simp only [hc, Bool.false_eq_true, if_false] at hne ⊢
      cases hok : adapter2
          { model := m
          , messages := [{ role := "system", content := systemMessageText },
                         { role := "user", content := full_prompt p }]
          , temperature := 0.2 } with
      | error e2 => simp [hok] at hne
      | ok comp =>
        cases hch : comp.choices.head? with
        | none => simp [hok, hch] at hne
        | some choice =>
          refine ⟨strip choice.message.content, ?_, ?_⟩
          · simp [hok, hch]
          · simp [hok, hch]

/-- Witness for C7 at a concrete failing adapter and a previously stored result. -/
theorem failed_completion_preserves_previous_result_witness :
    (handleGenerate ("test") ("llama3-8b-8192")
        (fun _ => Except.error AdapterError.transport) ⟨some ("previous")⟩).state =
      ⟨some ("previous")⟩ ∧
    ∀ adapter2 : ChatRequest → Except AdapterError ChatCompletion,
      (handleGenerate ("test") ("llama3-8b-8192") adapter2 ⟨some ("previous")⟩).state ≠
          ⟨some ("previous")⟩ →
        ∃ out, (handleGenerate ("test") ("llama3-8b-8192") adapter2
              ⟨some ("previous")⟩).outcome = Outcome.success out ∧
          (handleGenerate ("test") ("llama3-8b-8192") adapter2 ⟨some ("previous")⟩).state =
            ⟨some out⟩ :=
  failed_completion_preserves_previous_result ("test") ("llama3-8b-8192")
    AdapterError.transport (fun _ => Except.error AdapterError.transport)
    ⟨some ("previous")⟩ (fun _ => rfl)
